import Mathlib

/-!
Verification development for the boldly-go personal-banking service.

The Go source is shallowly embedded as follows.

Numbers: the Go float64 amounts and balances are modelled as rational
numbers; the arithmetic performed by the service (addition, negation,
absolute value) is exact over the rationals, which idealises binary
floating point but matches the arithmetic identities the service relies
on.

Time: the Go time.Time values are modelled as integers (nanoseconds since
the epoch); time.Time.Before is integer less-than.  The jwt library reads
expiry claims in seconds, but no token built by this service carries an
expiry claim, so a single time axis is used throughout.

Strings and identifiers: Go strings are Lean Strings.  The function
isUUID models the success of uuid.FromString on a canonical
8-4-4-4-12 hexadecimal UUID string, the format the spec requires of all
identifiers.

Cryptography: bcrypt and HMAC-SHA256 are modelled as ideal primitives.
A bcrypt hash is represented by the salt and the hashed plaintext
(StoredPwd.hashed); verification succeeds exactly on the matching
plaintext and fails on any malformed hash value (StoredPwd.raw).  An
HMAC signature is represented by the triple it authenticates (MacSig),
so two signatures are equal exactly when secret, algorithm and payload
all agree: the model of a collision-free MAC.

DynamoDB: the remote store is a Store record holding one list per table.
GetItem is List.find? on the composite key; Query is List.filter on the
partition key; PutItem appends; UpdateItem maps an update over the
records matching the key.  Unmarshalling an absent item yields the Go
zero value, exactly as dynamodbattribute.UnmarshalMap does on an empty
map.  Store requests that can fail in ways a claim depends on take an
explicit failure flag (StoreBehavior); a failed request leaves the store
unchanged and surfaces Err.persistence, matching the error-return paths
of the source.  Each resolver additionally returns the list of store
requests it issued (StoreOp), so that properties of the form performs no
store access are expressible.
-/

/-- Decides whether a character is a hexadecimal digit, as accepted by
the canonical UUID format. -/
def isHexDigit (c : Char) : Bool :=
  c.isDigit || (c ≥ 'a' && c ≤ 'f') || (c ≥ 'A' && c ≤ 'F')

/-- Models the success of uuid.FromString from github.com/satori/go.uuid
on the canonical UUID form: 36 characters, dashes at positions 8, 13, 18
and 23, hexadecimal digits elsewhere. -/
def isUUID (s : String) : Bool :=
  let cs := s.toList
  cs.length = 36 &&
  (List.range 36).all (fun i =>
    if i = 8 || i = 13 || i = 18 || i = 23 then cs.getD i ' ' = '-'
    else isHexDigit (cs.getD i ' '))

/-- Stored password field of a User record.  The Go field is a string;
the model distinguishes a bcrypt hash produced by HashPwd (carrying its
salt and the hashed plaintext, the ideal one-way hash) from any other
string (raw), on which bcrypt comparison always errors. -/
inductive StoredPwd
  | hashed (salt : Nat) (pwd : String)
  | raw (s : String)
deriving DecidableEq, Repr

/-- User entity from entities.go.  The Pwd field holds the stored
password value. -/
structure User where
  email : String
  pwd : StoredPwd
  name : String
deriving DecidableEq, Repr

/-- BankAccount entity from entities.go. -/
structure BankAccount where
  bankId : String
  accountId : String
  accountName : String
  accountType : String
  last4 : String
  currentBalance : ℚ
deriving DecidableEq, Repr

/-- Card entity from entities.go. -/
structure Card where
  accountId : String
  cardId : String
  last4 : String
  expiryMonth : String
  expiryYear : String
  cvv : String
  active : Bool
deriving DecidableEq, Repr

/-- Transaction entity from entities.go.  transactionDate is nanoseconds
since the epoch; cardId is optional. -/
structure Transaction where
  accountId : String
  transactionId : String
  transactionDate : Int
  amount : ℚ
  transactionType : String
  description : String
  cardId : Option String
deriving DecidableEq, Repr

/-- Claims map carried by a token built by this service: the email and
name claims set by BuildToken, plus the optional registered exp claim
which jwt.Parse checks when present.  BuildToken never sets exp. -/
structure MapClaims where
  email : String
  name : String
  exp : Option Int
deriving DecidableEq, Repr

/-- Ideal HMAC signature: the value is identified with the triple it
authenticates, so signatures agree exactly when secret, algorithm and
claims all agree. -/
structure MacSig where
  secret : String
  alg : String
  claims : MapClaims
deriving DecidableEq, Repr

/-- Computes the ideal HMAC signature for a payload under a secret. -/
def macSign (secret : String) (alg : String) (claims : MapClaims) : MacSig :=
  { secret := secret, alg := alg, claims := claims }

/-- Token text handed to jwt.Parse: either a structurally well formed
serialized JWT, or any other string, on which parsing fails. -/
inductive TokenStr
  | jwt (alg : String) (claims : MapClaims) (sig : MacSig)
  | garbage (s : String)
deriving DecidableEq, Repr

/-- Authorization header value as discriminated by ValidateToken in
authentication.go: the nil interface value, the empty string, a
nonempty string not prefixed by the Bearer scheme, or the Bearer scheme
followed by token text. -/
inductive AuthHeaderVal
  | nil
  | emptyStr
  | nonBearer (s : String)
  | bearer (t : TokenStr)
deriving DecidableEq, Repr

/-- Authentication failure classes, one per error-return site of
ValidateToken and of the jwt.Parse keyfunc and claim checks. -/
inductive AuthErr
  | noToken
  | notBearer
  | malformedToken
  | badAlg
  | expired
  | badSignature
deriving DecidableEq, Repr

/-- Error classes surfaced by the operations: an authentication failure,
a malformed-identifier failure from uuid.FromString, or a store request
failure. -/
inductive Err
  | auth (e : AuthErr)
  | validation
  | persistence
deriving DecidableEq, Repr

/-- Number of minutes a token is said to live, from authentication.go. -/
def tokenExpiryMin : Int := 60

/-- Token TTL in nanoseconds, as added to time.Now by BuildToken. -/
def tokenExpiryNanos : Int := tokenExpiryMin * 60 * 1000000000

/-- Models authSvc.BuildToken: signs a token over the email and name
claims of the user with HS256 under the process secret, and returns it
together with the expiry timestamp now plus sixty minutes in epoch
nanoseconds.  No expiry claim is placed inside the token itself. -/
def BuildToken (secret : String) (now : Int) (user : User) : TokenStr × Int :=
  let claims : MapClaims := { email := user.email, name := user.name, exp := none }
  (TokenStr.jwt "HS256" claims (macSign secret "HS256" claims), now + tokenExpiryNanos)

/-- Models the registered-claims check of jwt.Parse: when an exp claim
is present the token is valid only up to that instant; when absent the
check passes. -/
def claimsValid (now : Int) (claims : MapClaims) : Bool :=
  match claims.exp with
  | none => true
  | some e => now ≤ e

/-- Models jwt.Parse with the keyfunc of ValidateToken: parsing fails on
non-JWT text; the keyfunc rejects any signing method outside the HMAC
family; the registered claims are checked against the current time; the
signature is recomputed under the configured secret and compared. -/
def jwtParse (secret : String) (now : Int) : TokenStr → Except AuthErr MapClaims
  | TokenStr.garbage _ => Except.error AuthErr.malformedToken
  | TokenStr.jwt alg claims sig =>
    if ¬(alg = "HS256" ∨ alg = "HS384" ∨ alg = "HS512") then Except.error AuthErr.badAlg
    else if ¬ claimsValid now claims then Except.error AuthErr.expired
    else if sig ≠ macSign secret alg claims then Except.error AuthErr.badSignature
    else Except.ok claims

/-- Models authSvc.ValidateToken: errors when the header is the nil
interface value or the empty string, errors when the header does not
start with the Bearer scheme, and otherwise strips the scheme and hands
the token text to jwt.Parse, returning the decoded claims on success. -/
def ValidateToken (secret : String) (now : Int) (header : AuthHeaderVal) : Except AuthErr MapClaims :=
  match header with
  | AuthHeaderVal.nil => Except.error AuthErr.noToken
  | AuthHeaderVal.emptyStr => Except.error AuthErr.noToken
  | AuthHeaderVal.nonBearer _ => Except.error AuthErr.notBearer
  | AuthHeaderVal.bearer t => jwtParse secret now t

/-- Models authSvc.HashPwd: the ideal salted bcrypt hash of the
plaintext. -/
def HashPwd (salt : Nat) (pwd : String) : StoredPwd :=
  StoredPwd.hashed salt pwd

/-- Models authSvc.VerifyPwd: bcrypt comparison succeeds exactly when
the stored value is a hash of the submitted plaintext, and errors, hence
returns false, on any malformed stored value. -/
def VerifyPwd (stored : StoredPwd) (pwd : String) : Bool :=
  match stored with
  | StoredPwd.hashed _ p => p == pwd
  | StoredPwd.raw _ => false

/-- Persistent store: one list per DynamoDB table used by the service
(Users keyed by email, BankAccounts by bankId and accountId, Cards by
accountId and cardId, Transactions by accountId and transactionId). -/
structure Store where
  users : List User
  bankAccounts : List BankAccount
  cards : List Card
  transactions : List Transaction
deriving DecidableEq, Repr

/-- One store request issued by an operation, recorded so that claims
about which store accesses occur are expressible. -/
inductive StoreOp
  | queryBankAccounts (bankId : String)
  | getBankAccount (bankId accountId : String)
  | queryCards (accountId : String)
  | getCard (accountId cardId : String)
  | scanActiveCards (accountId : String)
  | queryTransactions (accountId : String)
  | getTransaction (accountId transactionId : String)
  | putTransaction (t : Transaction)
  | updateBalance (bankId accountId : String) (newBalance : ℚ)
  | updateCardInactive (accountId cardId : String)
  | putUserItem (u : User)
  | getUserItem (email : String)
deriving DecidableEq, Repr

/-- Failure flags for the store requests issued by Transaction.Save; a
set flag makes the corresponding request return an error, as a rejected
or unreachable DynamoDB call does. -/
structure StoreBehavior where
  putTransactionFails : Bool
  getAccountFails : Bool
  updateBalanceFails : Bool
deriving DecidableEq, Repr

/-- Behavior in which every store request succeeds. -/
def behSuccess : StoreBehavior :=
  { putTransactionFails := false, getAccountFails := false, updateBalanceFails := false }

/-- Go zero value of BankAccount, produced when an absent DynamoDB item
is unmarshalled. -/
def zeroBankAccount : BankAccount :=
  { bankId := "", accountId := "", accountName := "", accountType := "", last4 := "",
    currentBalance := 0 }

/-- Go zero value of Card, produced when an absent DynamoDB item is
unmarshalled. -/
def zeroCard : Card :=
  { accountId := "", cardId := "", last4 := "", expiryMonth := "", expiryYear := "",
    cvv := "", active := false }

/-- Looks up the BankAccount record at the composite key, as the
GetItem request of GetUserBankAccount does. -/
def findAccount (store : Store) (bankId accountId : String) : Option BankAccount :=
  store.bankAccounts.find? (fun a => a.bankId == bankId && a.accountId == accountId)

/-- Models GetUserBankAccounts from service.go: a Query on the
BankAccounts table by the bankId partition key. -/
def GetUserBankAccounts (store : Store) (bankId : String) : List BankAccount :=
  store.bankAccounts.filter (fun a => a.bankId == bankId)

/-- Models GetUserBankAccount from service.go: a GetItem on the
BankAccounts table; an absent item unmarshals to the zero value rather
than erroring. -/
def GetUserBankAccount (store : Store) (bankId accountId : String) : BankAccount :=
  (findAccount store bankId accountId).getD zeroBankAccount

/-- Models the pure balance computation of
BankAccount.UpdateCurrentBalance, lines 173 to 178 of service.go: a
CREDIT amount is replaced by minus its absolute value, any other amount
is added as given. -/
def newCurrentBalance (currentBalance amount : ℚ) (txnType : String) : ℚ :=
  let txnAmount := if txnType = "CREDIT" then |amount| * (-1) else amount
  currentBalance + txnAmount

/-- Models the UpdateItem write of BankAccount.UpdateCurrentBalance and
of BankAccount.Update on the currentBalance attribute: the record at the
key is updated in place. -/
def updateAccountBalance (store : Store) (bankId accountId : String) (newBal : ℚ) : Store :=
  { store with bankAccounts :=
      (store.bankAccounts.map
        (fun a => if a.bankId == bankId && a.accountId == accountId then
          { a with currentBalance := newBal } else a)) }

/-- Models GetAccountCards from service.go: a Query on the Cards table
by the accountId partition key. -/
def GetAccountCards (store : Store) (accountId : String) : List Card :=
  store.cards.filter (fun c => c.accountId == accountId)

/-- Models GetAccountCard from service.go: a GetItem on the Cards
table; an absent item unmarshals to the zero value. -/
def GetAccountCard (store : Store) (accountId cardId : String) : Card :=
  ((store.cards.find? (fun c => c.accountId == accountId && c.cardId == cardId)).getD zeroCard)

/-- Models GetActiveAccountCard from service.go: a Scan of the Cards
table filtered on the accountId and the active flag.  When the scan
request itself fails the error is surfaced; when it succeeds with no
matching item the function returns the nil card together with the nil
error, and otherwise the first matching card. -/
def GetActiveAccountCard (store : Store) (scanFails : Bool) (accountId : String) :
    Except Err (Option Card) :=
  if scanFails then Except.error Err.persistence
  else Except.ok ((store.cards.filter (fun c => c.accountId == accountId && c.active)).head?)

/-- Models Card.Inactivate from service.go: an UpdateItem on the Cards
table setting active to false on the record at the composite key, and
returning the in-memory card value unchanged. -/
def Card.Inactivate (c : Card) (store : Store) : List StoreOp × Store × Card :=
  ([StoreOp.updateCardInactive c.accountId c.cardId],
   { store with cards :=
       (store.cards.map
         (fun x => if x.accountId == c.accountId && x.cardId == c.cardId then
           { x with active := false } else x)) },
   c)

/-- Models GetAccountTransactions from service.go: a Query on the
Transactions table by the accountId partition key, followed by
sort.Slice on transactionDate. -/
def GetAccountTransactions (store : Store) (accountId : String) : List Transaction :=
  (store.transactions.filter (fun t => t.accountId == accountId)).mergeSort
    (fun a b => a.transactionDate ≤ b.transactionDate)

/-- Models GetAccountTransaction: a GetItem on the Transactions table;
an absent item unmarshals to the zero value, here kept as an Option for
the lookup itself. -/
def GetAccountTransaction (store : Store) (accountId transactionId : String) : Option Transaction :=
  store.transactions.find? (fun t => t.accountId == accountId && t.transactionId == transactionId)

/-- Models Transaction.Save from service.go, the transaction-posting
operation: assign the fresh transactionId, PutItem the transaction
record, only then parse the accountId of the transaction as a UUID,
GetItem the owning BankAccount, and issue the balance update computed
by UpdateCurrentBalance.  Each error path returns immediately with no
compensating write, leaving the store as the already completed requests
left it. -/
def Transaction.Save (t : Transaction) (store : Store) (beh : StoreBehavior)
    (bankId : String) (newId : String) : List StoreOp × Store × Except Err Transaction :=
  let t' := { t with transactionId := newId }
  if beh.putTransactionFails then
    ([StoreOp.putTransaction t'], store, Except.error Err.persistence)
  else
    let store1 := { store with transactions := store.transactions ++ [t'] }
    if ¬ isUUID t.accountId then
      ([StoreOp.putTransaction t'], store1, Except.error Err.validation)
    else if beh.getAccountFails then
      ([StoreOp.putTransaction t', StoreOp.getBankAccount bankId t.accountId], store1,
       Except.error Err.persistence)
    else
      let acct := GetUserBankAccount store1 bankId t.accountId
      let newBal := newCurrentBalance acct.currentBalance t.amount t.transactionType
      if beh.updateBalanceFails then
        ([StoreOp.putTransaction t', StoreOp.getBankAccount bankId t.accountId,
          StoreOp.updateBalance acct.bankId acct.accountId newBal], store1,
         Except.error Err.persistence)
      else
        ([StoreOp.putTransaction t', StoreOp.getBankAccount bankId t.accountId,
          StoreOp.updateBalance acct.bankId acct.accountId newBal],
         updateAccountBalance store1 acct.bankId acct.accountId newBal,
         Except.ok t')

/-- Models the PutItem of User.Register on the Users table keyed by
email: replaces the record at the key when present, otherwise appends. -/
def putUser : List User → User → List User
  | [], u => [u]
  | v :: vs, u => if v.email == u.email then u :: vs else v :: putUser vs u

/-- Models User.Register from the user service file: hashes the
plaintext password of the incoming user and stores the record under its
email key. -/
def User.Register (users : List User) (salt : Nat) (email name plaintext : String) :
    List User × User :=
  let u : User := { email := email, pwd := HashPwd salt plaintext, name := name }
  (putUser users u, u)

/-- Auth result from entities.go.  The Go Token string and ExpiresAt
int64 default to the empty string and zero; the model renders the absent
values as none. -/
structure Auth where
  success : Bool
  message : String
  token : Option TokenStr
  expiresAt : Option Int
deriving DecidableEq, Repr

/-- Models Authenticate from the user service file: a GetItem on the
Users table by email; a missing record, a failed password comparison or
a failed token build each yield a failure Auth value, and a successful
comparison yields a success Auth value carrying the built token and its
expiry.  In every case a typed Auth value is returned, never an error. -/
def Authenticate (users : List User) (secret : String) (now : Int) (email pwd : String) : Auth :=
  match users.find? (fun u => u.email == email) with
  | none =>
    { success := false,
      message := "Unable to find user by that email. Please check your email and try again",
      token := none, expiresAt := none }
  | some user =>
    if VerifyPwd user.pwd pwd then
      let (tok, expiry) := BuildToken secret now user
      { success := true, message := "Success", token := some tok, expiresAt := some expiry }
    else
      { success := false,
        message := "The password submitted does not match this users password. Please check the email and password and try again",
        token := none, expiresAt := none }

/-- Models the bankAccounts query resolver (part 000, lines 42 to 53):
validate the Authorization token from the request context, then parse
the bankId argument as a UUID, then query the BankAccounts table.  Each
failure returns before any store request is issued.  This is the only
account-scoped read resolver that invokes ValidateToken. -/
def bankAccountsResolver (store : Store) (secret : String) (now : Int)
    (header : AuthHeaderVal) (bankId : String) :
    List StoreOp × Except Err (List BankAccount) :=
  match ValidateToken secret now header with
  | Except.error e => ([], Except.error (Err.auth e))
  | Except.ok _ =>
    if isUUID bankId then
      ([StoreOp.queryBankAccounts bankId], Except.ok (GetUserBankAccounts store bankId))
    else ([], Except.error Err.validation)

/-- Models the bankAccount query resolver (part 000, lines 55 to 79):
parses the bankId and accountId arguments as UUIDs and issues the
GetItem.  The resolver reads the Authorization header from the request
context nowhere: the header argument is ignored exactly as the source
ignores it, and no token validation occurs. -/
def bankAccountResolver (store : Store) (header : AuthHeaderVal)
    (bankId accountId : String) :
    List StoreOp × Except Err BankAccount :=
  if isUUID bankId then
    if isUUID accountId then
      ([StoreOp.getBankAccount bankId accountId],
       Except.ok (GetUserBankAccount store bankId accountId))
    else ([], Except.error Err.validation)
  else ([], Except.error Err.validation)

/-- Models the accountCards query resolver (part 000, lines 80 to 96):
parses the accountId argument as a UUID and queries the Cards table; no
token validation occurs. -/
def accountCardsResolver (store : Store) (header : AuthHeaderVal) (accountId : String) :
    List StoreOp × Except Err (List Card) :=
  if isUUID accountId then
    ([StoreOp.queryCards accountId], Except.ok (GetAccountCards store accountId))
  else ([], Except.error Err.validation)

/-- Models the accountCard query resolver (part 000, lines 97 to 121):
parses the accountId and cardId arguments as UUIDs and issues the
GetItem; no token validation occurs. -/
def accountCardResolver (store : Store) (header : AuthHeaderVal)
    (accountId cardId : String) :
    List StoreOp × Except Err Card :=
  if isUUID accountId then
    if isUUID cardId then
      ([StoreOp.getCard accountId cardId], Except.ok (GetAccountCard store accountId cardId))
    else ([], Except.error Err.validation)
  else ([], Except.error Err.validation)

/-- Models the accountTransaction query resolver (part 000, lines 122 to
146): parses the accountId and transactionId arguments as UUIDs and
issues the GetItem; no token validation occurs. -/
def accountTransactionResolver (store : Store) (header : AuthHeaderVal)
    (accountId transactionId : String) :
    List StoreOp × Except Err (Option Transaction) :=
  if isUUID accountId then
    if isUUID transactionId then
      ([StoreOp.getTransaction accountId transactionId],
       Except.ok (GetAccountTransaction store accountId transactionId))
    else ([], Except.error Err.validation)
  else ([], Except.error Err.validation)

/-- Models the saveTransaction mutation resolver (part 000, lines 267
to 293): parses the bankId argument as a UUID before any store request,
then calls Transaction.Save with the decoded transaction input. -/
def saveTransactionResolver (store : Store) (beh : StoreBehavior)
    (bankId : String) (txn : Transaction) (newId : String) :
    List StoreOp × Store × Except Err Transaction :=
  if isUUID bankId then Transaction.Save txn store beh bankId newId
  else ([], store, Except.error Err.validation)

/-- Posts a sequence of transactions strictly sequentially through
Transaction.Save with every store request succeeding, pairing each
transaction with the fresh identifier assigned to it, and stopping at
the first failure. -/
def postAllTransactions (store : Store) (bankId : String) :
    List (Transaction × String) → List StoreOp × Store × Except Err Unit
  | [] => ([], store, Except.ok ())
  | (t, newId) :: rest =>
    match Transaction.Save t store behSuccess bankId newId with
    | (ops, st, Except.error e) => (ops, st, Except.error e)
    | (ops, st, Except.ok _) =>
      let r := postAllTransactions st bankId rest
      (ops ++ r.1, r.2.1, r.2.2)

/-- Signed direction a transaction applies to the balance per the spec:
minus one for a CREDIT transaction, plus one otherwise. -/
def txnSign (t : Transaction) : ℚ :=
  if t.transactionType = "CREDIT" then -1 else 1

/-- A header is a well formed Bearer header when it consists of the
Bearer scheme followed by token text. -/
def isWellFormedBearer : AuthHeaderVal → Prop :=
  fun h => ∃ t, h = AuthHeaderVal.bearer t

/-- Rewrites the balance computation as a signed delta when the amount
is nonnegative: a CREDIT subtracts the amount, anything else adds it. -/
theorem newCurrentBalance_sign (B amt : ℚ) (ty : String) (h : 0 ≤ amt) :
    newCurrentBalance B amt ty = B + (if ty = "CREDIT" then (-1 : ℚ) else 1) * amt := by
  unfold newCurrentBalance
  split
  · rw [abs_of_nonneg h]; ring
  · ring

/-- C10: the balance delta is asymmetric in its normalization of the
amount: a CREDIT transaction always applies minus the absolute value of
the given amount, so even a negative CREDIT amount decreases the
balance, whereas a DEBIT or any non-CREDIT transaction adds the signed
amount as given, so a DEBIT with a negative amount decreases the
balance. -/
theorem claim10_delta_asymmetry (B amt : ℚ) (ty : String) :
    newCurrentBalance B amt "CREDIT" = B - |amt| ∧
    (ty ≠ "CREDIT" → newCurrentBalance B amt ty = B + amt) ∧
    (ty ≠ "CREDIT" → amt < 0 → newCurrentBalance B amt ty < B) := by
  refine ⟨?_, ?_, ?_⟩
  · unfold newCurrentBalance; simp; ring
  · intro hty; unfold newCurrentBalance; simp [hty]
  · intro hty hneg; unfold newCurrentBalance; simp [hty]; linarith

/-- Witness for claim 10 at a concrete input: a DEBIT of minus fifty on
balance one hundred lands strictly below one hundred, and a negative
CREDIT also decreases the balance. -/
theorem claim10_delta_asymmetry_check :
    ("DEBIT" ≠ "CREDIT") ∧
    newCurrentBalance 100 (-50) "DEBIT" < 100 ∧
    newCurrentBalance 100 (-50) "CREDIT" = 100 - |(-50 : ℚ)| := by
  refine ⟨by decide, ?_, ?_⟩
  · exact (claim10_delta_asymmetry 100 (-50) "DEBIT").2.2 (by decide) (by norm_num)
  · exact (claim10_delta_asymmetry 100 (-50) "DEBIT").1

/-- Counterexample for claim 2: the claim asserts that validation of a
token fails after the sixty-minute TTL elapses, but BuildToken places no
expiry claim inside the token, so a token issued at time zero still
validates one nanosecond after its advertised expiry timestamp, and
indeed at any later time. -/
theorem claim2_no_expiry_counterexample :
    ValidateToken "topsecret"
      ((BuildToken "topsecret" 0
          { email := "a@x.com", pwd := StoredPwd.raw "pw1", name := "A" }).2 + 1)
      (AuthHeaderVal.bearer
        (BuildToken "topsecret" 0
          { email := "a@x.com", pwd := StoredPwd.raw "pw1", name := "A" }).1)
      = Except.ok { email := "a@x.com", name := "A", exp := none } := by
  rfl

/-- C2 as amended: a token issued for subject S validates with the
issuing secret at every instant, within the TTL window and after it
alike, because no expiry claim is embedded in the token, and the
returned claims carry the email of S; validation under any different
signing secret fails with a signature error. -/
theorem claim2_token_roundtrip_amended (secret secret2 : String) (nowB nowV : Int)
    (u : User) (hne : secret2 ≠ secret) :
    (∃ c, ValidateToken secret nowV (AuthHeaderVal.bearer (BuildToken secret nowB u).1)
        = Except.ok c ∧ c.email = u.email) ∧
    ValidateToken secret2 nowV (AuthHeaderVal.bearer (BuildToken secret nowB u).1)
      = Except.error AuthErr.badSignature := by
  constructor
  · refine ⟨{ email := u.email, name := u.name, exp := none }, ?_, rfl⟩
    simp [ValidateToken, BuildToken, jwtParse, claimsValid, macSign]
  · simp only [ValidateToken, BuildToken, jwtParse, claimsValid, macSign]
    simp [MacSig.mk.injEq]
    exact fun h => hne h.symm

/-- Witness for claim 2 as amended at a concrete input: distinct
secrets give a failed validation and the matching secret a successful
one carrying the subject email. -/
theorem claim2_token_roundtrip_amended_check :
    ("other" : String) ≠ "topsecret" ∧
    ValidateToken "other" 99
        (AuthHeaderVal.bearer
          (BuildToken "topsecret" 0
            { email := "a@x.com", pwd := StoredPwd.raw "pw1", name := "A" }).1)
      = Except.error AuthErr.badSignature := by
  refine ⟨by decide, ?_⟩
  exact (claim2_token_roundtrip_amended "topsecret" "other" 0 99
    { email := "a@x.com", pwd := StoredPwd.raw "pw1", name := "A" } (by decide)).2

/-- C5: for every account identifier and every stored set of
transactions, whatever the insertion order, GetAccountTransactions
returns exactly the transactions owned by that account, as a
permutation of the filtered table, and in a sequence that is
non-decreasing by transactionDate. -/
theorem claim5_transactions_sorted (store : Store) (accountId : String) :
    (GetAccountTransactions store accountId).Perm
      (store.transactions.filter (fun t => t.accountId == accountId)) ∧
    (∀ t : Transaction, t ∈ GetAccountTransactions store accountId ↔
      (t ∈ store.transactions ∧ t.accountId = accountId)) ∧
    List.Pairwise (fun a b : Transaction => a.transactionDate ≤ b.transactionDate)
      (GetAccountTransactions store accountId) := by
  refine ⟨List.mergeSort_perm _ _, ?_, ?_⟩
  · intro t
    unfold GetAccountTransactions
    rw [(List.mergeSort_perm _ _).mem_iff, List.mem_filter]
    simp
  · have h := @List.sorted_mergeSort Transaction
      (fun a b : Transaction => decide (a.transactionDate ≤ b.transactionDate))
      (fun a b c hab hbc => by
        simp only [decide_eq_true_eq] at *
        omega)
      (fun a b => by
        simp only [Bool.or_eq_true, decide_eq_true_eq]
        omega)
      (store.transactions.filter (fun t => t.accountId == accountId))
    exact h.imp (fun hd => by simpa using hd)

/-- C8: with the scan request succeeding, GetActiveAccountCard returns
the nil card with the nil error when no card owned by the account is
active, and returns some active card owned by the account when at least
one is active. -/
theorem claim8_active_card (store : Store) (accountId : String) :
    ((∀ c ∈ store.cards, c.accountId = accountId → c.active = false) →
      GetActiveAccountCard store false accountId = Except.ok none) ∧
    ((∃ c ∈ store.cards, c.accountId = accountId ∧ c.active = true) →
      ∃ c, GetActiveAccountCard store false accountId = Except.ok (some c) ∧
        c.accountId = accountId ∧ c.active = true) := by
  constructor
  · intro h
    have hnil : store.cards.filter (fun c => c.accountId == accountId && c.active) = [] := by
      rw [List.filter_eq_nil_iff]
      intro c hc
      simp only [Bool.and_eq_true, beq_iff_eq, not_and]
      intro hacc
      simp [h c hc hacc]
    simp [GetActiveAccountCard, hnil]
  · rintro ⟨c, hc, hacc, hact⟩
    have hne : store.cards.filter (fun c => c.accountId == accountId && c.active) ≠ [] := by
      intro hnil
      rw [List.filter_eq_nil_iff] at hnil
      exact hnil c hc (by simp [hacc, hact])
    cases hh : (store.cards.filter (fun c => c.accountId == accountId && c.active)).head? with
    | none => exact absurd (List.head?_eq_none_iff.mp hh) hne
    | some d =>
      have hd : d ∈ store.cards.filter (fun c => c.accountId == accountId && c.active) :=
        List.mem_of_mem_head? (by rw [hh]; exact Option.mem_some_iff.mpr rfl)
      have hprops := (List.mem_filter.mp hd).2
      simp only [Bool.and_eq_true, beq_iff_eq] at hprops
      exact ⟨d, by simp [GetActiveAccountCard, hh], hprops.1, hprops.2⟩

/-- Sample bank identifier in canonical UUID form. -/
def uuidBank : String := "11111111-1111-1111-1111-111111111111"

/-- Sample account identifier in canonical UUID form. -/
def uuidAcct : String := "22222222-2222-2222-2222-222222222222"

/-- Sample card identifier in canonical UUID form. -/
def uuidCardA : String := "33333333-3333-3333-3333-333333333333"

/-- Second sample card identifier in canonical UUID form. -/
def uuidCardB : String := "44444444-4444-4444-4444-444444444444"

/-- Sample transaction identifier in canonical UUID form. -/
def uuidTxn1 : String := "55555555-5555-5555-5555-555555555555"

/-- Second sample transaction identifier in canonical UUID form. -/
def uuidTxn2 : String := "66666666-6666-6666-6666-666666666666"

/-- Sample bank account holding a balance of one hundred. -/
def sampleAccount : BankAccount :=
  { bankId := uuidBank, accountId := uuidAcct, accountName := "Checking",
    accountType := "CHECKING", last4 := "1234", currentBalance := 100 }

/-- Sample active card owned by the sample account. -/
def sampleCardA : Card :=
  { accountId := uuidAcct, cardId := uuidCardA, last4 := "1111", expiryMonth := "01",
    expiryYear := "2030", cvv := "123", active := true }

/-- Sample inactive card owned by the sample account. -/
def sampleCardB : Card :=
  { accountId := uuidAcct, cardId := uuidCardB, last4 := "2222", expiryMonth := "02",
    expiryYear := "2031", cvv := "456", active := false }

/-- Sample store holding the sample account, both sample cards and no
transactions. -/
def sampleStore : Store :=
  { users := [], bankAccounts := [sampleAccount], cards := [sampleCardA, sampleCardB],
    transactions := [] }

/-- Sample store whose only cards are inactive. -/
def sampleStoreInactive : Store :=
  { users := [], bankAccounts := [sampleAccount], cards := [sampleCardB], transactions := [] }

/-- Witness for claim 8 at concrete inputs: a store whose only card for
the account is inactive yields the nil result with the nil error, and a
store with an active card yields some active card of the account. -/
theorem claim8_active_card_check :
    GetActiveAccountCard sampleStoreInactive false uuidAcct = Except.ok none ∧
    (∃ c, GetActiveAccountCard sampleStore false uuidAcct = Except.ok (some c) ∧
      c.accountId = uuidAcct ∧ c.active = true) := by
  constructor
  · exact (claim8_active_card sampleStoreInactive uuidAcct).1 (by decide)
  · exact (claim8_active_card sampleStore uuidAcct).2 ⟨sampleCardA, by decide, by decide, by decide⟩

/-- C7: Card.Inactivate sets active to false on exactly the card at the
named composite key: the card table keeps its length, the record at the
key keeps every field except the active flag, every other card record
is unchanged, and the other tables are untouched. -/
theorem claim7_inactivate_frame (store : Store) (c : Card) (i : Nat)
    (h : i < store.cards.length) (h2 : i < ((c.Inactivate store).2.1).cards.length) :
    ((c.Inactivate store).2.1.cards.length = store.cards.length) ∧
    (((store.cards.get ⟨i, h⟩).accountId = c.accountId ∧
        (store.cards.get ⟨i, h⟩).cardId = c.cardId) →
      (c.Inactivate store).2.1.cards.get ⟨i, h2⟩ =
        { store.cards.get ⟨i, h⟩ with active := false }) ∧
    ((¬ ((store.cards.get ⟨i, h⟩).accountId = c.accountId ∧
        (store.cards.get ⟨i, h⟩).cardId = c.cardId)) →
      (c.Inactivate store).2.1.cards.get ⟨i, h2⟩ = store.cards.get ⟨i, h⟩) ∧
    (c.Inactivate store).2.1.bankAccounts = store.bankAccounts ∧
    (c.Inactivate store).2.1.transactions = store.transactions ∧
    (c.Inactivate store).2.1.users = store.users := by
  refine ⟨by simp [Card.Inactivate], ?_, ?_, rfl, rfl, rfl⟩
  · rintro ⟨ha, hc⟩
    simp only [List.get_eq_getElem] at ha hc
    simp only [Card.Inactivate, List.get_eq_getElem, List.getElem_map]
    rw [if_pos (by simp [ha, hc])]
  · intro hne
    simp only [List.get_eq_getElem] at hne
    simp only [Card.Inactivate, List.get_eq_getElem, List.getElem_map]
    rw [if_neg]
    simp only [Bool.and_eq_true, beq_iff_eq]
    exact fun hcontra => hne hcontra

/-- Witness for claim 7 at a concrete input: inactivating the first
sample card leaves the second card record and the other tables
untouched and clears only the active flag of the first. -/
theorem claim7_inactivate_frame_check :
    (0 < sampleStore.cards.length) ∧
    ((sampleStore.cards.get ⟨0, by decide⟩).accountId = sampleCardA.accountId ∧
      (sampleStore.cards.get ⟨0, by decide⟩).cardId = sampleCardA.cardId) ∧
    (sampleCardA.Inactivate sampleStore).2.1.cards.get ⟨0, by decide⟩ =
      { sampleStore.cards.get ⟨0, by decide⟩ with active := false } := by
  refine ⟨by decide, by decide, ?_⟩
  exact (claim7_inactivate_frame sampleStore sampleCardA 0 (by decide) (by decide)).2.1
    (by decide)

/-- Store behavior in which only the balance-update request fails. -/
def behBalanceWriteFails : StoreBehavior :=
  { putTransactionFails := false, getAccountFails := false, updateBalanceFails := true }

/-- C6: when the balance-update step of transaction posting fails after
the transaction record was persisted, the record remains durably in the
Transactions table, the account balances are left exactly as they were,
the card and user tables are untouched, no compensating write occurs,
and the error is returned to the caller. -/
theorem claim6_partial_failure (store : Store) (bankId : String) (t : Transaction)
    (newId : String) (h : isUUID t.accountId = true) :
    (Transaction.Save t store behBalanceWriteFails bankId newId).2.2 =
      Except.error Err.persistence ∧
    (Transaction.Save t store behBalanceWriteFails bankId newId).2.1.transactions =
      store.transactions ++ [{ t with transactionId := newId }] ∧
    (Transaction.Save t store behBalanceWriteFails bankId newId).2.1.bankAccounts =
      store.bankAccounts ∧
    (Transaction.Save t store behBalanceWriteFails bankId newId).2.1.cards = store.cards ∧
    (Transaction.Save t store behBalanceWriteFails bankId newId).2.1.users = store.users := by
  simp [Transaction.Save, behBalanceWriteFails, h]

/-- Sample DEBIT transaction of fifty against the sample account. -/
def txnDebit50 : Transaction :=
  { accountId := uuidAcct, transactionId := "", transactionDate := 1, amount := 50,
    transactionType := "DEBIT", description := "paycheck", cardId := none }

/-- Sample CREDIT transaction of thirty against the sample account. -/
def txnCredit30 : Transaction :=
  { accountId := uuidAcct, transactionId := "", transactionDate := 2, amount := 30,
    transactionType := "CREDIT", description := "groceries", cardId := none }

/-- Witness for claim 6 at a concrete input: posting the sample DEBIT
with a failing balance update leaves the stored balance at one hundred
while the transaction record is persisted. -/
theorem claim6_partial_failure_check :
    isUUID txnDebit50.accountId = true ∧
    (Transaction.Save txnDebit50 sampleStore behBalanceWriteFails uuidBank uuidTxn1).2.2 =
      Except.error Err.persistence ∧
    (Transaction.Save txnDebit50 sampleStore behBalanceWriteFails uuidBank uuidTxn1).2.1.transactions =
      sampleStore.transactions ++ [{ txnDebit50 with transactionId := uuidTxn1 }] ∧
    (Transaction.Save txnDebit50 sampleStore behBalanceWriteFails uuidBank uuidTxn1).2.1.bankAccounts =
      sampleStore.bankAccounts := by
  have hcl := claim6_partial_failure sampleStore uuidBank txnDebit50 uuidTxn1 (by decide)
  exact ⟨by decide, hcl.1, hcl.2.1, hcl.2.2.1⟩

/-- Counterexample for claim 3: the claim asserts that every read
exposing account-scoped data fails with an authentication error and
performs no store access when issued without a well formed Bearer
header, yet the bankAccount resolver, invoked here with the absent
Authorization header, issues its GetItem request and returns the
account record successfully. -/
theorem claim3_ungated_read_counterexample :
    (bankAccountResolver sampleStore AuthHeaderVal.nil uuidBank uuidAcct).1 =
      [StoreOp.getBankAccount uuidBank uuidAcct] ∧
    (bankAccountResolver sampleStore AuthHeaderVal.nil uuidBank uuidAcct).2 =
      Except.ok sampleAccount := by
  constructor <;> rfl

/-- C3 as amended: of the account-scoped read resolvers only
bankAccounts applies the token gate: that gated read, issued without a
well formed Bearer header, fails with an authentication error before
any store request; each of the ungated reads bankAccount, accountCards,
accountCard and accountTransaction performs its store request and never
returns an authentication error, whatever the Authorization header. -/
theorem claim3_auth_gate_amended :
    (∀ (store : Store) (secret : String) (now : Int) (h : AuthHeaderVal) (bankId : String),
      ¬ isWellFormedBearer h →
      (bankAccountsResolver store secret now h bankId).1 = [] ∧
      ∃ e, (bankAccountsResolver store secret now h bankId).2 = Except.error (Err.auth e)) ∧
    (∀ (store : Store) (h : AuthHeaderVal) (bankId accountId : String),
      isUUID bankId = true → isUUID accountId = true →
      (bankAccountResolver store h bankId accountId).1 ≠ [] ∧
      ∀ e, (bankAccountResolver store h bankId accountId).2 ≠ Except.error (Err.auth e)) ∧
    (∀ (store : Store) (h : AuthHeaderVal) (accountId : String),
      isUUID accountId = true →
      (accountCardsResolver store h accountId).1 ≠ [] ∧
      ∀ e, (accountCardsResolver store h accountId).2 ≠ Except.error (Err.auth e)) ∧
    (∀ (store : Store) (h : AuthHeaderVal) (accountId cardId : String),
      isUUID accountId = true → isUUID cardId = true →
      (accountCardResolver store h accountId cardId).1 ≠ [] ∧
      ∀ e, (accountCardResolver store h accountId cardId).2 ≠ Except.error (Err.auth e)) ∧
    (∀ (store : Store) (h : AuthHeaderVal) (accountId transactionId : String),
      isUUID accountId = true → isUUID transactionId = true →
      (accountTransactionResolver store h accountId transactionId).1 ≠ [] ∧
      ∀ e, (accountTransactionResolver store h accountId transactionId).2 ≠
        Except.error (Err.auth e)) := by
  refine ⟨?_, ?_, ?_, ?_, ?_⟩
  · intro store secret now h bankId hw
    cases h with
    | nil => exact ⟨rfl, AuthErr.noToken, rfl⟩
    | emptyStr => exact ⟨rfl, AuthErr.noToken, rfl⟩
    | nonBearer s => exact ⟨rfl, AuthErr.notBearer, rfl⟩
    | bearer t => exact absurd ⟨t, rfl⟩ hw
  · intro store h bankId accountId hb ha
    simp [bankAccountResolver, hb, ha]
  · intro store h accountId ha
    simp [accountCardsResolver, ha]
  · intro store h accountId cardId ha hc
    simp [accountCardResolver, ha, hc]
  · intro store h accountId transactionId ha ht
    simp [accountTransactionResolver, ha, ht]

/-- Witness for claim 3 as amended at concrete inputs: the gated
bankAccounts read with no header fails before any store request, and
each ungated read, issued here with no header and valid identifiers,
touches the store. -/
theorem claim3_auth_gate_amended_check :
    (¬ isWellFormedBearer AuthHeaderVal.nil) ∧
    (bankAccountsResolver sampleStore "topsecret" 0 AuthHeaderVal.nil uuidBank).1 = [] ∧
    (∃ e, (bankAccountsResolver sampleStore "topsecret" 0 AuthHeaderVal.nil uuidBank).2 =
      Except.error (Err.auth e)) ∧
    (bankAccountResolver sampleStore AuthHeaderVal.nil uuidBank uuidAcct).1 ≠ [] ∧
    (accountCardsResolver sampleStore AuthHeaderVal.nil uuidAcct).1 ≠ [] ∧
    (accountCardResolver sampleStore AuthHeaderVal.nil uuidAcct uuidCardA).1 ≠ [] ∧
    (accountTransactionResolver sampleStore AuthHeaderVal.nil uuidAcct uuidTxn1).1 ≠ [] := by
  have h1 := (claim3_auth_gate_amended.1 sampleStore "topsecret" 0 AuthHeaderVal.nil uuidBank
    (by rintro ⟨t, ht⟩; cases ht))
  have h2 := (claim3_auth_gate_amended.2.1 sampleStore AuthHeaderVal.nil uuidBank uuidAcct
    (by decide) (by decide))
  have h3 := (claim3_auth_gate_amended.2.2.1 sampleStore AuthHeaderVal.nil uuidAcct
    (by decide))
  have h4 := (claim3_auth_gate_amended.2.2.2.1 sampleStore AuthHeaderVal.nil uuidAcct uuidCardA
    (by decide) (by decide))
  have h5 := (claim3_auth_gate_amended.2.2.2.2 sampleStore AuthHeaderVal.nil uuidAcct uuidTxn1
    (by decide) (by decide))
  exact ⟨(by rintro ⟨t, ht⟩; cases ht), h1.1, h1.2, h2.1, h3.1, h4.1, h5.1⟩

/-- Sample transaction whose owning accountId is not a UUID. -/
def txnBadAcct : Transaction :=
  { accountId := "not-a-uuid", transactionId := "", transactionDate := 3, amount := 50,
    transactionType := "DEBIT", description := "bad", cardId := none }

/-- Counterexample for claim 4: the claim asserts that an operation
given a non-UUID identifier performs no store read or write, yet
posting a transaction whose accountId is not a UUID persists the
transaction record with a PutItem before the identifier check fires:
the request trace is nonempty and the stored transaction list has
grown, even though the operation ends in the validation error. -/
theorem claim4_late_accountId_counterexample :
    (saveTransactionResolver sampleStore behSuccess uuidBank txnBadAcct uuidTxn1).1 =
      [StoreOp.putTransaction { txnBadAcct with transactionId := uuidTxn1 }] ∧
    (saveTransactionResolver sampleStore behSuccess uuidBank txnBadAcct uuidTxn1).2.1.transactions =
      [{ txnBadAcct with transactionId := uuidTxn1 }] ∧
    (saveTransactionResolver sampleStore behSuccess uuidBank txnBadAcct uuidTxn1).2.2 =
      Except.error Err.validation := by
  refine ⟨rfl, rfl, rfl⟩

/-- C4 as amended: every identifier passed as an operation argument,
that is bankId, accountId, cardId and transactionId arguments of the
read resolvers and the bankId argument of saveTransaction, is validated
as a UUID before any store request, failing fast with the validation
error; but the accountId carried inside the transaction input is
validated by Transaction.Save only after the transaction record has
been persisted, so exactly one store write, the PutItem of the record,
occurs before that validation error. -/
theorem claim4_id_validation_amended :
    (∀ (store : Store) (secret : String) (now : Int) (h : AuthHeaderVal) (bankId : String),
      (∃ c, ValidateToken secret now h = Except.ok c) → isUUID bankId = false →
      bankAccountsResolver store secret now h bankId = ([], Except.error Err.validation)) ∧
    (∀ (store : Store) (h : AuthHeaderVal) (bankId accountId : String),
      isUUID bankId = false ∨ isUUID accountId = false →
      bankAccountResolver store h bankId accountId = ([], Except.error Err.validation)) ∧
    (∀ (store : Store) (h : AuthHeaderVal) (accountId : String),
      isUUID accountId = false →
      accountCardsResolver store h accountId = ([], Except.error Err.validation)) ∧
    (∀ (store : Store) (h : AuthHeaderVal) (accountId cardId : String),
      isUUID accountId = false ∨ isUUID cardId = false →
      accountCardResolver store h accountId cardId = ([], Except.error Err.validation)) ∧
    (∀ (store : Store) (h : AuthHeaderVal) (accountId transactionId : String),
      isUUID accountId = false ∨ isUUID transactionId = false →
      accountTransactionResolver store h accountId transactionId =
        ([], Except.error Err.validation)) ∧
    (∀ (store : Store) (beh : StoreBehavior) (bankId : String) (txn : Transaction)
        (newId : String),
      isUUID bankId = false →
      saveTransactionResolver store beh bankId txn newId =
        ([], store, Except.error Err.validation)) ∧
    (∀ (store : Store) (bankId : String) (txn : Transaction) (newId : String),
      isUUID bankId = true → isUUID txn.accountId = false →
      saveTransactionResolver store behSuccess bankId txn newId =
        ([StoreOp.putTransaction { txn with transactionId := newId }],
         { store with transactions := store.transactions ++ [{ txn with transactionId := newId }] },
         Except.error Err.validation)) := by
  refine ⟨?_, ?_, ?_, ?_, ?_, ?_, ?_⟩
  · rintro store secret now h bankId ⟨c, hc⟩ hb
    simp [bankAccountsResolver, hc, hb]
  · rintro store h bankId accountId (hb | ha)
    · simp [bankAccountResolver, hb]
    · by_cases hb : isUUID bankId <;> simp [bankAccountResolver, hb, ha]
  · intro store h accountId ha
    simp [accountCardsResolver, ha]
  · rintro store h accountId cardId (ha | hc)
    · simp [accountCardResolver, ha]
    · by_cases ha : isUUID accountId <;> simp [accountCardResolver, ha, hc]
  · rintro store h accountId transactionId (ha | ht)
    · simp [accountTransactionResolver, ha]
    · by_cases ha : isUUID accountId <;> simp [accountTransactionResolver, ha, ht]
  · intro store beh bankId txn newId hb
    simp [saveTransactionResolver, hb]
  · intro store bankId txn newId hb ha
    simp [saveTransactionResolver, Transaction.Save, behSuccess, hb, ha]

/-- Witness for claim 4 as amended at concrete inputs: each resolver
rejects a malformed identifier with the validation error before any
store request, and the late accountId check of Transaction.Save fires
only after the one PutItem. -/
theorem claim4_id_validation_amended_check :
    isUUID "oops" = false ∧ isUUID uuidBank = true ∧
    isUUID txnBadAcct.accountId = false ∧
    (∃ c, ValidateToken "s" 0
      (AuthHeaderVal.bearer (BuildToken "s" 0
        { email := "a@x.com", pwd := StoredPwd.raw "pw1", name := "A" }).1) = Except.ok c) ∧
    bankAccountsResolver sampleStore "s" 0
      (AuthHeaderVal.bearer (BuildToken "s" 0
        { email := "a@x.com", pwd := StoredPwd.raw "pw1", name := "A" }).1) "oops" =
      ([], Except.error Err.validation) ∧
    bankAccountResolver sampleStore AuthHeaderVal.nil "oops" uuidAcct =
      ([], Except.error Err.validation) ∧
    accountCardsResolver sampleStore AuthHeaderVal.nil "oops" =
      ([], Except.error Err.validation) ∧
    accountCardResolver sampleStore AuthHeaderVal.nil "oops" uuidCardA =
      ([], Except.error Err.validation) ∧
    accountTransactionResolver sampleStore AuthHeaderVal.nil "oops" uuidTxn1 =
      ([], Except.error Err.validation) ∧
    saveTransactionResolver sampleStore behSuccess "oops" txnDebit50 uuidTxn1 =
      ([], sampleStore, Except.error Err.validation) ∧
    saveTransactionResolver sampleStore behSuccess uuidBank txnBadAcct uuidTxn1 =
      ([StoreOp.putTransaction { txnBadAcct with transactionId := uuidTxn1 }],
       { sampleStore with transactions :=
          sampleStore.transactions ++ [{ txnBadAcct with transactionId := uuidTxn1 }] },
       Except.error Err.validation) := by
  refine ⟨by decide, by decide, by decide, ⟨_, rfl⟩, ?_, ?_, ?_, ?_, ?_, ?_, ?_⟩
  · exact claim4_id_validation_amended.1 sampleStore "s" 0 _ "oops" ⟨_, rfl⟩ (by decide)
  · exact claim4_id_validation_amended.2.1 sampleStore AuthHeaderVal.nil "oops" uuidAcct
      (Or.inl (by decide))
  · exact claim4_id_validation_amended.2.2.1 sampleStore AuthHeaderVal.nil "oops" (by decide)
  · exact claim4_id_validation_amended.2.2.2.1 sampleStore AuthHeaderVal.nil "oops" uuidCardA
      (Or.inl (by decide))
  · exact claim4_id_validation_amended.2.2.2.2.1 sampleStore AuthHeaderVal.nil "oops" uuidTxn1
      (Or.inl (by decide))
  · exact claim4_id_validation_amended.2.2.2.2.2.1 sampleStore behSuccess "oops" txnDebit50
      uuidTxn1 (by decide)
  · exact claim4_id_validation_amended.2.2.2.2.2.2 sampleStore uuidBank txnBadAcct uuidTxn1
      (by decide) (by decide)

/-- Looking up a user by email right after putting the record at that
email key finds exactly the record just put. -/
theorem find?_putUser (users : List User) (u : User) :
    (putUser users u).find? (fun v => v.email == u.email) = some u := by
  induction users with
  | nil => simp [putUser]
  | cons v vs ih =>
    cases hv : (v.email == u.email) with
    | true => simp [putUser, hv]
    | false =>
      rw [putUser]
      rw [if_neg (by simp_all)]
      rw [List.find?_cons_of_neg _ (by simp_all)]
      exact ih

/-- C9: after registering a user with an email and a password, an
authenticate call with that email and the correct password returns an
Auth value with success true and a present token, while an authenticate
call with that email and a wrong password returns an Auth value with
success false and no token; both calls return a typed Auth value. -/
theorem claim9_authenticate (users : List User) (salt : Nat)
    (email name p wrongp : String) (secret : String) (now : Int)
    (hw : wrongp ≠ p) :
    (Authenticate (User.Register users salt email name p).1 secret now email p).success =
      true ∧
    (Authenticate (User.Register users salt email name p).1 secret now email p).token.isSome =
      true ∧
    (Authenticate (User.Register users salt email name p).1 secret now email wrongp).success =
      false ∧
    (Authenticate (User.Register users salt email name p).1 secret now email wrongp).token =
      none := by
  have hfind :
      (User.Register users salt email name p).1.find? (fun v => v.email == email) =
        some { email := email, pwd := HashPwd salt p, name := name } := by
    exact find?_putUser users { email := email, pwd := HashPwd salt p, name := name }
  refine ⟨?_, ?_, ?_, ?_⟩ <;>
    simp [Authenticate, hfind, VerifyPwd, HashPwd, BuildToken, hw, Ne.symm hw]

/-- Witness for claim 9 at the concrete scenario of the spec: register
the user with email a at x dot com and password pw1, authenticate with
pw1 and succeed with a token, authenticate with wrong and fail with no
token. -/
theorem claim9_authenticate_check :
    ("wrong" : String) ≠ "pw1" ∧
    (Authenticate (User.Register [] 7 "a@x.com" "A" "pw1").1 "s" 0 "a@x.com" "pw1").success =
      true ∧
    (Authenticate (User.Register [] 7 "a@x.com" "A" "pw1").1 "s" 0 "a@x.com" "pw1").token.isSome =
      true ∧
    (Authenticate (User.Register [] 7 "a@x.com" "A" "pw1").1 "s" 0 "a@x.com" "wrong").success =
      false ∧
    (Authenticate (User.Register [] 7 "a@x.com" "A" "pw1").1 "s" 0 "a@x.com" "wrong").token =
      none := by
  have h := claim9_authenticate [] 7 "a@x.com" "A" "pw1" "wrong" "s" 0 (by decide)
  exact ⟨by decide, h.1, h.2.1, h.2.2.1, h.2.2.2⟩

/-- Updating the balance of the record found at a key rewrites exactly
that record in the table, so the lookup after the update finds the same
record with the new balance. -/
theorem find?_updateAccounts (l : List BankAccount) (bid aid : String) (b : ℚ)
    (acct : BankAccount)
    (h : l.find? (fun a => a.bankId == bid && a.accountId == aid) = some acct) :
    (l.map (fun a => if a.bankId == bid && a.accountId == aid then
        { a with currentBalance := b } else a)).find?
      (fun a => a.bankId == bid && a.accountId == aid) =
      some { acct with currentBalance := b } := by
  induction l with
  | nil => simp at h
  | cons a l ih =>
    cases hp : (a.bankId == bid && a.accountId == aid) with
    | true =>
      rw [@List.find?_cons_of_pos BankAccount
        (fun x => x.bankId == bid && x.accountId == aid) a l hp] at h
      have ha : a = acct := by injection h
      subst ha
      rw [List.map_cons, if_pos hp]
      exact @List.find?_cons_of_pos BankAccount
        (fun x => x.bankId == bid && x.accountId == aid) _ _ hp
    | false =>
      rw [@List.find?_cons_of_neg BankAccount
        (fun x => x.bankId == bid && x.accountId == aid) a l (by simp [hp])] at h
      rw [List.map_cons, if_neg (by simp [hp])]
      rw [@List.find?_cons_of_neg BankAccount
        (fun x => x.bankId == bid && x.accountId == aid) _ _ (by simp [hp])]
      exact ih h

/-- The balance-update write changes exactly the stored balance of the
record at the key. -/
theorem findAccount_updateBalance (store : Store) (bid aid : String) (b : ℚ)
    (acct : BankAccount) (h : findAccount store bid aid = some acct) :
    findAccount (updateAccountBalance store bid aid b) bid aid =
      some { acct with currentBalance := b } := by
  simp only [findAccount, updateAccountBalance] at h ⊢
  exact find?_updateAccounts _ _ _ _ _ h

/-- With every store request succeeding and the owning account present
at the key, Transaction.Save persists the assigned transaction, reads
the account, and writes the balance computed by the balance rule. -/
theorem Save_success (store : Store) (bankId : String) (t : Transaction) (newId : String)
    (acct : BankAccount)
    (hfind : findAccount store bankId t.accountId = some acct)
    (huuid : isUUID t.accountId = true) :
    Transaction.Save t store behSuccess bankId newId =
      ([StoreOp.putTransaction { t with transactionId := newId },
        StoreOp.getBankAccount bankId t.accountId,
        StoreOp.updateBalance bankId t.accountId
          (newCurrentBalance acct.currentBalance t.amount t.transactionType)],
       updateAccountBalance
         { store with transactions := store.transactions ++ [{ t with transactionId := newId }] }
         bankId t.accountId
         (newCurrentBalance acct.currentBalance t.amount t.transactionType),
       Except.ok { t with transactionId := newId }) := by
  have hp := List.find?_some hfind
  simp only [Bool.and_eq_true, beq_iff_eq] at hp
  obtain ⟨hb, ha⟩ := hp
  have hget : GetUserBankAccount
      { store with transactions := store.transactions ++ [{ t with transactionId := newId }] }
      bankId t.accountId = acct := by
    simp only [GetUserBankAccount, findAccount] at hfind ⊢
    rw [hfind]
    rfl
  simp [Transaction.Save, behSuccess, huuid, hget, hb, ha]

/-- C1: for an account stored with balance B and a strictly sequential
series of transactions posted against it through Transaction.Save, each
with a nonnegative amount as the data model prescribes, every post
succeeds and the stored balance ends at B plus the sum of the signed
amounts, the sign being minus one for CREDIT and plus one for DEBIT. -/
theorem claim1_balance_fold (txns : List (Transaction × String)) (store : Store)
    (bankId aid : String) (acct : BankAccount)
    (hfind : findAccount store bankId aid = some acct)
    (huuid : isUUID aid = true)
    (hown : ∀ p ∈ txns, (p.1).accountId = aid)
    (hamt : ∀ p ∈ txns, 0 ≤ (p.1).amount) :
    (postAllTransactions store bankId txns).2.2 = Except.ok () ∧
    findAccount (postAllTransactions store bankId txns).2.1 bankId aid =
      some { acct with currentBalance :=
        acct.currentBalance + (txns.map (fun p => txnSign p.1 * (p.1).amount)).sum } := by
  induction txns generalizing store acct with
  | nil =>
    refine ⟨rfl, ?_⟩
    simpa using hfind
  | cons q rest ih =>
    obtain ⟨t, newId⟩ := q
    have ht : t.accountId = aid := hown (t, newId) (List.mem_cons_self _ _)
    have hamt0 : 0 ≤ t.amount := hamt (t, newId) (List.mem_cons_self _ _)
    subst ht
    have hsave := Save_success store bankId t newId acct hfind huuid
    have hfind1 := findAccount_updateBalance
      { store with transactions := store.transactions ++ [{ t with transactionId := newId }] }
      bankId t.accountId
      (newCurrentBalance acct.currentBalance t.amount t.transactionType) acct hfind
    have hrest := ih _ _ hfind1
      (fun p hp => hown p (List.mem_cons_of_mem _ hp))
      (fun p hp => hamt p (List.mem_cons_of_mem _ hp))
    simp only [postAllTransactions, hsave]
    refine ⟨hrest.1, ?_⟩
    rw [hrest.2]
    have hbal : newCurrentBalance acct.currentBalance t.amount t.transactionType +
        (rest.map (fun p => txnSign p.1 * (p.1).amount)).sum =
        acct.currentBalance +
          (((t, newId) :: rest).map (fun p => txnSign p.1 * (p.1).amount)).sum := by
      rw [newCurrentBalance_sign _ _ _ hamt0]
      simp only [List.map_cons, List.sum_cons, txnSign]
      ring
    rw [← hbal]

/-- Witness for claim 1 at the concrete scenario of the spec: the
sample account starts at one hundred; posting the DEBIT of fifty stores
one hundred fifty; posting the DEBIT of fifty and then the CREDIT of
thirty stores one hundred twenty, with every post succeeding. -/
theorem claim1_balance_fold_scenario :
    findAccount (postAllTransactions sampleStore uuidBank
        [(txnDebit50, uuidTxn1)]).2.1 uuidBank uuidAcct =
      some { sampleAccount with currentBalance := 150 } ∧
    findAccount (postAllTransactions sampleStore uuidBank
        [(txnDebit50, uuidTxn1), (txnCredit30, uuidTxn2)]).2.1 uuidBank uuidAcct =
      some { sampleAccount with currentBalance := 120 } ∧
    (postAllTransactions sampleStore uuidBank
        [(txnDebit50, uuidTxn1), (txnCredit30, uuidTxn2)]).2.2 = Except.ok () := by
  have h1 := claim1_balance_fold [(txnDebit50, uuidTxn1)] sampleStore uuidBank uuidAcct
    sampleAccount rfl (by decide)
    (by intro p hp; simp only [List.mem_singleton] at hp; subst hp; rfl)
    (by intro p hp; simp only [List.mem_singleton] at hp; subst hp; norm_num [txnDebit50])
  have h2 := claim1_balance_fold [(txnDebit50, uuidTxn1), (txnCredit30, uuidTxn2)]
    sampleStore uuidBank uuidAcct sampleAccount rfl (by decide)
    (by intro p hp; simp only [List.mem_cons, List.mem_singleton] at hp
        rcases hp with rfl | rfl | h0
        · rfl
        · rfl
        · cases h0)
    (by intro p hp; simp only [List.mem_cons, List.mem_singleton] at hp
        rcases hp with rfl | rfl | h0
        · norm_num [txnDebit50]
        · norm_num [txnCredit30]
        · cases h0)
  have hne : ¬ (("DEBIT" : String) = "CREDIT") := by decide
  refine ⟨?_, ?_, h2.1⟩
  · rw [h1.2]
    norm_num [sampleAccount, txnSign, txnDebit50, hne]
  · rw [h2.2]
    norm_num [sampleAccount, txnSign, txnDebit50, txnCredit30, hne]
